import Mathlib

/-!
Shallow embedding of the authentication/authorization core of the Raax
backend (Express + Firebase Admin on one side, Express + SQLite + bcrypt +
jsonwebtoken on the other), together with proofs about its behaviour.

Embedded source files:
* `src/middleware/auth.js` — Firebase-backed access gates
  (`authenticateToken`, `optionalAuth`);
* `src/server.js` — local password variant (`authenticate`, `createToken`,
  `/api/register`, `/api/login`);
* `src/routes/auth.js` — Firebase-backed register/login routes;
* `src/routes/hadith.js` — admin-gated mutating handlers.

External collaborators (Firebase Auth, the RTDB, SQLite, bcrypt, the JWT
library) are modelled as explicit parameters or as plain data, exactly at
the narrow interface the route code uses.
-/

namespace Raax

/-! ### JavaScript string primitives

The route code uses `String.prototype.split(' ')`, `trim()`, `toLowerCase()`,
`startsWith`/`slice`. We model them over `List Char` by structural recursion
so that every concrete computation reduces in the kernel. JS `toLowerCase`
is full Unicode; `Char.toLower` covers ASCII, which is all the embedded
strings use. -/

/-- Whitespace recognised by JS `trim()` (the ASCII part, which is all the
embedded strings use). -/
def isSpaceChar (c : Char) : Bool :=
  c = ' ' || c = '\t' || c = '\n' || c = '\r'

/-- JS `s.trim()`. -/
def jsTrim (s : String) : String :=
  String.mk (((s.data.dropWhile isSpaceChar).reverse.dropWhile isSpaceChar).reverse)

/-- JS `s.toLowerCase()` (ASCII). -/
def jsToLower (s : String) : String :=
  String.mk (s.data.map Char.toLower)

/-- JS `s.split(' ')` on the character list: splits at every single space,
keeping empty segments, and yields `[""]` on the empty string. -/
def splitOnSpace : List Char → List (List Char)
  | [] => [[]]
  | c :: rest =>
    let r := splitOnSpace rest
    if c = ' ' then [] :: r
    else
      match r with
      | [] => [[c]]
      | w :: ws => (c :: w) :: ws

/-- JS `s.split(' ')`. -/
def jsSplitSpace (s : String) : List String :=
  (splitOnSpace s.data).map String.mk

/-! ### Data model: decoded tokens and gate outcomes -/

/-- The decoded Firebase ID token that `admin.auth().verifyIdToken`
resolves: the fields the routes read are `uid` and `email`. -/
structure DecodedUser where
  uid : String
  email : String
deriving DecidableEq, Repr

/-- Outcome of an Express middleware: either an error response was sent
(`reject status message`) and `next()` was never called, or `next()` ran
and the handler executes with `user` attached to the request. -/
inductive GateResult (α : Type) where
  | reject (status : Nat) (message : String)
  | proceed (user : α)
deriving DecidableEq, Repr

/-! ### `src/middleware/auth.js` — Firebase-backed gates -/

/-- Token extraction shared by `authenticateToken` and `optionalAuth`:
`const token = authHeader && authHeader.split(' ')[1]`, where a missing
header, an empty header (falsy, short-circuiting `&&`), a missing second
segment (`undefined`) and an empty second segment (`''`) all leave `token`
falsy. Note no check that the first segment is `Bearer`. -/
def extractToken (authHeader : Option String) : Option String :=
  match authHeader with
  | none => none
  | some h =>
    if h = "" then none
    else
      match (jsSplitSpace h).get? 1 with
      | none => none
      | some t => if t = "" then none else some t

/-- `authenticateToken` from `src/middleware/auth.js`: 401 when no token is
extracted, otherwise `admin.auth().verifyIdToken` (the parameter `verify`;
`none` models any thrown verification error, caught by the surrounding
`try`) decides between 403 and proceeding with the decoded user attached. -/
def authenticateToken (verify : String → Option DecodedUser)
    (authHeader : Option String) : GateResult DecodedUser :=
  match extractToken authHeader with
  | none => .reject 401 "Access token required"
  | some t =>
    match verify t with
    | none => .reject 403 "Invalid or expired token"
    | some u => .proceed u

/-- `optionalAuth` from `src/middleware/auth.js`: same extraction and
verification, but every failure path falls through to `next()` with no
user attached (the `catch` block calls `next()`). -/
def optionalAuth (verify : String → Option DecodedUser)
    (authHeader : Option String) : GateResult (Option DecodedUser) :=
  match extractToken authHeader with
  | none => .proceed none
  | some t =>
    match verify t with
    | none => .proceed none
    | some u => .proceed (some u)

/-! ### `src/server.js` — local JWT gate -/

/-- The claims object the local routes sign and read back: `{ id, email }`. -/
structure JwtPayload where
  id : String
  email : String
deriving DecidableEq, Repr

/-- Token extraction in `authenticate` (`src/server.js`):
`const header = req.headers.authorization || ''` then
`header.startsWith('Bearer ') ? header.slice(7) : null`; the later
`if (!token)` also treats the empty slice as missing. -/
def localExtract (authHeader : Option String) : Option String :=
  let header := (authHeader.getD "").data
  if header.take 7 = "Bearer ".data then
    let t := String.mk (header.drop 7)
    if t = "" then none else some t
  else none

/-- `authenticate` from `src/server.js`: 401 `Missing token` when no token
is extracted, 401 `Invalid token` when `jwt.verify` (the parameter
`verify`) errors, else proceed with the decoded payload as `req.user`. -/
def authenticate (verify : String → Option JwtPayload)
    (authHeader : Option String) : GateResult JwtPayload :=
  match localExtract authHeader with
  | none => .reject 401 "Missing token"
  | some t =>
    match verify t with
    | none => .reject 401 "Invalid token"
    | some decoded => .proceed decoded

/-! ### `src/server.js` — token issuance and the register/login routes -/

/-- Seven days in seconds: the `expiresIn: '7d'` option of `jwt.sign`. -/
def sevenDays : Nat := 7 * 24 * 60 * 60

/-- A signed JWT as `jwt.sign(payload, JWT_SECRET, { expiresIn: '7d' })`
produces it: the claims, the issued-at instant, the expiry instant, and
the signing secret (standing for the signature). -/
structure Token where
  payload : JwtPayload
  iat : Nat
  exp : Nat
  secret : String
deriving DecidableEq, Repr

/-- `createToken` from `src/server.js`: signs `payload` with the server
secret and an expiry 7 days after issuance. -/
def createToken (secret : String) (now : Nat) (payload : JwtPayload) : Token :=
  { payload := payload, iat := now, exp := now + sevenDays, secret := secret }

/-- A row of the SQLite `users` table:
`(id, email, password, name, created_at)`; `password` holds the bcrypt
hash, `name` is nullable. -/
structure UserRecord where
  id : String
  email : String
  password : String
  name : Option String
  created_at : String
deriving DecidableEq, Repr

/-- `String(email).trim().toLowerCase()` as the register/login routes
normalize the supplied email. -/
def normalizeEmail (email : String) : String :=
  jsToLower (jsTrim email)

/-- `SELECT ... FROM users WHERE email = ?`: the first stored row whose
email equals the queried one (the column is `UNIQUE`, so at most one
matches). -/
def findUserByEmail (users : List UserRecord) (email : String) : Option UserRecord :=
  users.find? (fun u => u.email = email)

/-- JS falsy test on an optional request-body string field:
`undefined` and `''` are falsy. -/
def strMissing : Option String → Bool
  | none => true
  | some s => s = ""

/-- Outcome of `POST /api/login` (`src/server.js`). -/
inductive LoginResult where
  | missingFields
  | invalidCredentials
  | ok (user : UserRecord) (token : Token)
deriving DecidableEq, Repr

/-- HTTP status of each login outcome: 400 `email and password required`,
401 `Invalid credentials`, or the default 200 of `res.json`. -/
def LoginResult.status : LoginResult → Nat
  | .missingFields => 400
  | .invalidCredentials => 401
  | .ok _ _ => 200

/-- The token carried by the response body, if any. -/
def LoginResult.issuedToken : LoginResult → Option Token
  | .ok _ t => some t
  | _ => none

/-- `POST /api/login` from `src/server.js`. `compare` is
`bcrypt.compare(password, user.password)`. The route rejects missing or
empty fields with 400, answers 401 `Invalid credentials` both when no row
matches the normalized email and when the hash comparison fails, and
otherwise signs `{ id: user.id, email: user.email }`. -/
def login (compare : String → String → Bool) (secret : String) (now : Nat)
    (users : List UserRecord) (email password : Option String) : LoginResult :=
  if strMissing email || strMissing password then .missingFields
  else
    let e := email.getD ""
    let p := password.getD ""
    match findUserByEmail users (normalizeEmail e) with
    | none => .invalidCredentials
    | some user =>
      if compare p user.password then
        .ok user (createToken secret now { id := user.id, email := user.email })
      else .invalidCredentials

/-- Outcome of `POST /api/register` (`src/server.js`). -/
inductive RegisterResult where
  | missingFields
  | duplicate
  | ok (user : UserRecord) (token : Token)
deriving DecidableEq, Repr

/-- HTTP status of each register outcome. The success branch answers with
`res.json(...)` and never sets a status, so Express sends its default
200. -/
def RegisterResult.status : RegisterResult → Nat
  | .missingFields => 400
  | .duplicate => 400
  | .ok _ _ => 200

/-- `POST /api/register` from `src/server.js`. `hash` is
`bcrypt.hash(password, SALT_ROUNDS)`; `newId` is the fresh `uuidv4()` and
`createdAt` the current ISO timestamp. Only email and password are
required; `name || null` stores a missing or empty name as NULL. Returns
the response outcome together with the users table after the request. -/
def register (hash : String → String) (secret : String) (now : Nat)
    (newId createdAt : String) (users : List UserRecord)
    (email password name : Option String) : RegisterResult × List UserRecord :=
  if strMissing email || strMissing password then (.missingFields, users)
  else
    let normalizedEmail := normalizeEmail (email.getD "")
    match findUserByEmail users normalizedEmail with
    | some _ => (.duplicate, users)
    | none =>
      let user : UserRecord :=
        { id := newId, email := normalizedEmail,
          password := hash (password.getD ""),
          name := if strMissing name then none else name,
          created_at := createdAt }
      (.ok user (createToken secret now { id := newId, email := normalizedEmail }),
       users ++ [user])

/-! ### `src/routes/auth.js` — Firebase-backed register and login -/

/-- A user account held by the external Firebase Auth service. The
`credential` field is the password the account was created with: it lives
inside the provider and nothing in this repository can read it back —
`getUserByEmail` exposes only `uid`, `email` and `displayName`. -/
structure FbUser where
  uid : String
  email : String
  displayName : Option String
  credential : String
deriving DecidableEq, Repr

/-- A shaped HTTP response: status, message, and the token carried in the
response data, if any. -/
structure Resp where
  status : Nat
  message : String
  token : Option String := none
deriving DecidableEq, Repr

/-- `POST /api/auth/register` from `src/routes/auth.js`: requires email,
password and name (400 otherwise); `admin.auth().createUser` rejects a
duplicate email (the thrown error is caught and answered with 400);
otherwise the account is created, the RTDB record written with
`isAdmin: false`, and a custom token (`newToken`) returned with 201.
Returns the response and the provider's account list afterwards. -/
def fbRegister (newUid newToken : String) (authUsers : List FbUser)
    (email password name : Option String) : Resp × List FbUser :=
  if strMissing email || strMissing password || strMissing name then
    ({ status := 400, message := "Email, password, and name are required" }, authUsers)
  else
    match authUsers.find? (fun u => u.email = email.getD "") with
    | some _ =>
      ({ status := 400, message := "The email address is already in use by another account." },
       authUsers)
    | none =>
      let u : FbUser :=
        { uid := newUid, email := email.getD "",
          displayName := name, credential := password.getD "" }
      ({ status := 201, message := "User registered successfully", token := some newToken },
       authUsers ++ [u])

/-- `POST /api/auth/login` from `src/routes/auth.js`: requires email and
password (400 otherwise), then calls `admin.auth().getUserByEmail(email)`
— whose failure is caught and answered 401 `Invalid credentials` — and on
success immediately issues `admin.auth().createCustomToken(uid)`
(`customToken`) with 200. The supplied password is never consulted. -/
def fbLogin (authUsers : List FbUser) (customToken : String → String)
    (email password : Option String) : Resp :=
  if strMissing email || strMissing password then
    { status := 400, message := "Email and password are required" }
  else
    match authUsers.find? (fun u => u.email = email.getD "") with
    | none => { status := 401, message := "Invalid credentials" }
    | some u =>
      { status := 200, message := "Login successful", token := some (customToken u.uid) }

/-! ### `src/routes/hadith.js` — admin-gated mutating handlers -/

/-- The RTDB record at `users/<uid>` as the register route writes it;
`isAdmin` may be absent from a record, hence `Option Bool`. -/
structure StoredUser where
  name : String
  email : String
  createdAt : String
  isAdmin : Option Bool
deriving DecidableEq, Repr

/-- The admin test the hadith handlers inline:
`if (!userData || !userData.isAdmin)` fails — so the check passes exactly
when the record exists and its `isAdmin` field is (truthy, here:) `true`. -/
def isAdminUser : Option StoredUser → Bool
  | none => false
  | some d => d.isAdmin.getD false

/-- `POST /api/hadith` (`src/routes/hadith.js`): 400 when title, text or
reference is missing; then the admin check (403 `Admin access required`);
then the hadith is pushed and answered 201. -/
def postHadith (users : String → Option StoredUser) (uid : String)
    (title text reference : Option String) : Resp :=
  if strMissing title || strMissing text || strMissing reference then
    { status := 400, message := "Title, text, and reference are required" }
  else if isAdminUser (users uid) then
    { status := 201, message := "Hadith added successfully" }
  else
    { status := 403, message := "Admin access required" }

/-- `PUT /api/hadith/:id` (`src/routes/hadith.js`): the existence check
(404 `Hadith not found`) runs before the admin check (403). -/
def updateHadith (hadiths : List String) (users : String → Option StoredUser)
    (uid id : String) : Resp :=
  if hadiths.contains id then
    if isAdminUser (users uid) then
      { status := 200, message := "Hadith updated successfully" }
    else
      { status := 403, message := "Admin access required" }
  else
    { status := 404, message := "Hadith not found" }

/-- `DELETE /api/hadith/:id` (`src/routes/hadith.js`): the existence check
(404 `Hadith not found`) runs before the admin check (403). -/
def deleteHadith (hadiths : List String) (users : String → Option StoredUser)
    (uid id : String) : Resp :=
  if hadiths.contains id then
    if isAdminUser (users uid) then
      { status := 200, message := "Hadith deleted successfully" }
    else
      { status := 403, message := "Admin access required" }
  else
    { status := 404, message := "Hadith not found" }

/-! ### Concrete stand-ins used by witnesses and counterexamples -/

/-- A concrete stand-in for `bcrypt.hash` in concrete runs. -/
def demoHash (p : String) : String := "H:" ++ p

/-- A concrete stand-in for `bcrypt.compare`, matching `demoHash`. -/
def demoCompare (p h : String) : Bool := h == demoHash p

/-- A registered local user whose password was `secret123`. -/
def demoUser : UserRecord :=
  { id := "u1", email := "a@x.com", password := "H:secret123",
    name := some "Amina", created_at := "t0" }

/-- An RTDB user table where every uid resolves to a non-admin record. -/
def demoUsers : String → Option StoredUser :=
  fun _ => some { name := "Bob", email := "b@x.com", createdAt := "t0", isAdmin := some false }

/-- A Firebase account registered as `a@x.com` with password `right`. -/
def demoFbUser : FbUser :=
  { uid := "u1", email := "a@x.com", displayName := some "Amina", credential := "right" }

/-! ## Theorems -/

/-- **C4**: every request processed by `optionalAuth` proceeds to the
handler: no reject is ever produced; with no extractable token, or with a
token that fails verification, it proceeds anonymously; with a verified
token, the decoded identity is attached. -/
theorem optionalAuth_always_proceeds_c4 (verify : String → Option DecodedUser)
    (header : Option String) :
    (∀ s m, optionalAuth verify header ≠ .reject s m) ∧
    (extractToken header = none → optionalAuth verify header = .proceed none) ∧
    (∀ t, extractToken header = some t → verify t = none →
      optionalAuth verify header = .proceed none) ∧
    (∀ t u, extractToken header = some t → verify t = some u →
      optionalAuth verify header = .proceed (some u)) := by
  cases hx : extractToken header with
  | none =>
    refine ⟨fun s m => ?_, fun _ => ?_, fun t ht => ?_, fun t u ht => ?_⟩ <;>
      simp_all [optionalAuth, hx]
  | some t0 =>
    cases hv : verify t0 with
    | none =>
      refine ⟨fun s m => ?_, fun h => ?_, fun t ht => ?_, fun t u ht hu => ?_⟩ <;>
        simp_all [optionalAuth, hx, hv]
    | some u0 =>
      refine ⟨fun s m => ?_, fun h => ?_, fun t ht hu => ?_, fun t u ht hu => ?_⟩ <;>
        simp_all [optionalAuth, hx, hv]

/-- Witness for **C4**: a request with an unverifiable token proceeds
anonymously. -/
theorem optionalAuth_always_proceeds_c4_witness :
    optionalAuth (fun _ => (none : Option DecodedUser)) (some "Bearer bad") =
      .proceed none :=
  (optionalAuth_always_proceeds_c4 (fun _ => none) (some "Bearer bad")).2.2.1
    "bad" (by decide) rfl

/-- **C9**: the Firebase-backed gates take the token to be the second
space-separated segment of the Authorization header without checking the
scheme word: `Basic xyz` is processed with `xyz` as the token, and a bare
`Bearer` with no second segment counts as a missing token (401 from
`authenticateToken`, anonymous continuation from `optionalAuth`). -/
theorem gates_ignore_scheme_word_c9 :
    extractToken (some "Basic xyz") = some "xyz" ∧
    (∀ (verify : String → Option DecodedUser) (u : DecodedUser), verify "xyz" = some u →
      authenticateToken verify (some "Basic xyz") = .proceed u) ∧
    (∀ verify : String → Option DecodedUser, verify "xyz" = none →
      authenticateToken verify (some "Basic xyz") = .reject 403 "Invalid or expired token") ∧
    extractToken (some "Bearer") = none ∧
    (∀ verify : String → Option DecodedUser,
      authenticateToken verify (some "Bearer") = .reject 401 "Access token required") ∧
    (∀ verify : String → Option DecodedUser,
      optionalAuth verify (some "Bearer") = .proceed none) := by
  have hbasic : extractToken (some "Basic xyz") = some "xyz" := by decide
  have hbearer : extractToken (some "Bearer") = none := by decide
  refine ⟨hbasic, fun verify u hu => ?_, fun verify hu => ?_, hbearer,
    fun verify => ?_, fun verify => ?_⟩
  · simp [authenticateToken, hbasic, hu]
  · simp [authenticateToken, hbasic, hu]
  · simp [authenticateToken, hbearer]
  · simp [optionalAuth, hbearer]

/-- Witness for **C9**: a verifier that accepts `xyz` lets a `Basic xyz`
header through the Firebase gate. -/
theorem gates_ignore_scheme_word_c9_witness :
    authenticateToken (fun _ => some { uid := "u1", email := "a@x.com" })
        (some "Basic xyz") = .proceed { uid := "u1", email := "a@x.com" } :=
  gates_ignore_scheme_word_c9.2.1 (fun _ => some { uid := "u1", email := "a@x.com" })
    { uid := "u1", email := "a@x.com" } rfl

/-- **C2 (amended)**: the Firebase gate `authenticateToken` answers 401
with no handler execution when no token is extracted, and one fixed 403
response — the same for every failure cause — when verification fails;
the local gate `authenticate` answers 401 in both cases (`Missing token`
vs `Invalid token`), not 403 for failed verification. In `GateResult`,
`.reject` is a middleware return without calling `next()`, so in every
failure case the route handler does not execute. -/
theorem access_gate_failure_statuses_c2 :
    (∀ (verify : String → Option DecodedUser) (header : Option String),
      extractToken header = none →
      authenticateToken verify header = .reject 401 "Access token required") ∧
    (∀ (verify : String → Option DecodedUser) (header : Option String) (t : String),
      extractToken header = some t → verify t = none →
      authenticateToken verify header = .reject 403 "Invalid or expired token") ∧
    (∀ (verify : String → Option JwtPayload) (header : Option String),
      localExtract header = none →
      authenticate verify header = .reject 401 "Missing token") ∧
    (∀ (verify : String → Option JwtPayload) (header : Option String) (t : String),
      localExtract header = some t → verify t = none →
      authenticate verify header = .reject 401 "Invalid token") := by
  refine ⟨fun verify header hx => ?_, fun verify header t hx hv => ?_,
    fun verify header hx => ?_, fun verify header t hx hv => ?_⟩
  · simp [authenticateToken, hx]
  · simp [authenticateToken, hx, hv]
  · simp [authenticate, hx]
  · simp [authenticate, hx, hv]

/-- Witness for **C2**: the two gates on a present-but-unverifiable token
and on an absent token. -/
theorem access_gate_failure_statuses_c2_witness :
    authenticateToken (fun _ => (none : Option DecodedUser)) (some "Bearer xyz") =
      .reject 403 "Invalid or expired token" ∧
    authenticate (fun _ => (none : Option JwtPayload)) (some "Bearer xyz") =
      .reject 401 "Invalid token" ∧
    authenticateToken (fun _ => (none : Option DecodedUser)) none =
      .reject 401 "Access token required" ∧
    authenticate (fun _ => (none : Option JwtPayload)) none =
      .reject 401 "Missing token" :=
  ⟨access_gate_failure_statuses_c2.2.1 _ (some "Bearer xyz") "xyz" (by decide) rfl,
   access_gate_failure_statuses_c2.2.2.2 _ (some "Bearer xyz") "xyz" (by decide) rfl,
   access_gate_failure_statuses_c2.1 _ none rfl,
   access_gate_failure_statuses_c2.2.2.1 _ none rfl⟩

/-- Counterexample for **C2** as stated: the local gate answers a failed
verification with HTTP 401, not the claimed 403. -/
theorem local_gate_invalid_token_401_cex_c2 :
    authenticate (fun _ => (none : Option JwtPayload)) (some "Bearer xyz") =
      .reject 401 "Invalid token" ∧ (401 : Nat) ≠ 403 := by
  decide

/-- **C1 (amended)**: the local Login (`src/server.js`) answers a
registered email with a non-matching password by 401 `Invalid
credentials` and issues no token; the Firebase-backed Login
(`src/routes/auth.js`) never consults the password — its outcome is
identical for any two non-empty supplied passwords, so it issues a token
for any registered email whatever the password. -/
theorem login_wrong_password_c1
    (compare : String → String → Bool) (secret : String) (now : Nat)
    (users : List UserRecord) (e p : String) (u : UserRecord)
    (he : e ≠ "") (hp : p ≠ "")
    (hfind : findUserByEmail users (normalizeEmail e) = some u)
    (hcmp : compare p u.password = false) :
    login compare secret now users (some e) (some p) = .invalidCredentials ∧
    (login compare secret now users (some e) (some p)).status = 401 ∧
    (login compare secret now users (some e) (some p)).issuedToken = none ∧
    (∀ (authUsers : List FbUser) (customToken : String → String) (e2 p1 p2 : String),
      p1 ≠ "" → p2 ≠ "" →
      fbLogin authUsers customToken (some e2) (some p1) =
        fbLogin authUsers customToken (some e2) (some p2)) := by
  have hlocal : login compare secret now users (some e) (some p) = .invalidCredentials := by
    simp [login, strMissing, he, hp, hfind, hcmp]
  refine ⟨hlocal, by rw [hlocal]; rfl, by rw [hlocal]; rfl,
    fun authUsers customToken e2 p1 p2 hp1 hp2 => ?_⟩
  simp [fbLogin, strMissing, hp1, hp2]

/-- Witness for **C1**: the stored user `demoUser` (password hash of
`secret123`), a login with password `wrong`. -/
theorem login_wrong_password_c1_witness :
    login demoCompare "sec" 0 [demoUser] (some "a@x.com") (some "wrong") =
      .invalidCredentials ∧
    fbLogin [] (fun uid => uid) (some "a@x.com") (some "wrong") =
      fbLogin [] (fun uid => uid) (some "a@x.com") (some "alsowrong") :=
  ⟨(login_wrong_password_c1 demoCompare "sec" 0 [demoUser] "a@x.com" "wrong" demoUser
      (by decide) (by decide) (by decide) (by decide)).1,
   (login_wrong_password_c1 demoCompare "sec" 0 [demoUser] "a@x.com" "wrong" demoUser
      (by decide) (by decide) (by decide) (by decide)).2.2.2
     [] (fun uid => uid) "a@x.com" "wrong" "alsowrong" (by decide) (by decide)⟩

/-- Counterexample for **C1** as stated: against the Firebase-backed
login route, an account created with password `right` is answered 200
with a freshly issued custom token when the supplied password is `wrong`
— not 401, and a token is issued. -/
theorem fb_login_ignores_password_cex_c1 :
    ("wrong" : String) ≠ "right" ∧
    fbLogin [{ uid := "u1", email := "a@x.com", displayName := some "Amina",
               credential := "right" }]
        (fun uid => "tok-" ++ uid) (some "a@x.com") (some "wrong") =
      { status := 200, message := "Login successful", token := some "tok-u1" } := by
  decide

/-- **C3**: in the admin-gated hadith handlers, a missing user record and
a record whose `isAdmin` flag is absent or not `true` produce the
identical 403 `Admin access required` response (shown for the delete and
the create handler), and the delete handler succeeds (200) exactly when
the record exists with `isAdmin` explicitly `true`. -/
theorem require_admin_forbidden_c3
    (users : String → Option StoredUser) (uid : String)
    (hadiths : List String) (id : String) (hex : id ∈ hadiths)
    (title text reference : String)
    (ht : title ≠ "") (htx : text ≠ "") (hr : reference ≠ "") :
    (users uid = none →
      deleteHadith hadiths users uid id =
        { status := 403, message := "Admin access required" } ∧
      postHadith users uid (some title) (some text) (some reference) =
        { status := 403, message := "Admin access required" }) ∧
    (∀ d : StoredUser, users uid = some d → d.isAdmin ≠ some true →
      deleteHadith hadiths users uid id =
        { status := 403, message := "Admin access required" } ∧
      postHadith users uid (some title) (some text) (some reference) =
        { status := 403, message := "Admin access required" }) ∧
    ((deleteHadith hadiths users uid id).status = 200 ↔
      ∃ d, users uid = some d ∧ d.isAdmin = some true) := by
  have hadm : ∀ h : isAdminUser (users uid) = false,
      deleteHadith hadiths users uid id =
        { status := 403, message := "Admin access required" } ∧
      postHadith users uid (some title) (some text) (some reference) =
        { status := 403, message := "Admin access required" } := by
    intro h
    constructor
    · simp [deleteHadith, hex, h]
    · simp [postHadith, strMissing, ht, htx, hr, h]
  refine ⟨fun hu => hadm (by simp [isAdminUser, hu]), fun d hu hd => ?_, ?_⟩
  · refine hadm ?_
    simp only [isAdminUser, hu]
    cases hflag : d.isAdmin with
    | none => rfl
    | some b =>
      cases b with
      | false => rfl
      | true => exact absurd hflag hd
  · cases hu : users uid with
    | none =>
      simp [deleteHadith, hex, isAdminUser, hu, Resp.status]
    | some d =>
      cases hflag : d.isAdmin with
      | none => simp [deleteHadith, hex, isAdminUser, hu, hflag, Resp.status]
      | some b =>
        cases b with
        | false => simp [deleteHadith, hex, isAdminUser, hu, hflag, Resp.status]
        | true => simp [deleteHadith, hex, isAdminUser, hu, hflag, Resp.status]

/-- Witness for **C3**: with a user table where the caller's record has
`isAdmin = some false` and an existing hadith `h1`, the delete handler
answers the fixed 403 response. -/
theorem require_admin_forbidden_c3_witness :
    deleteHadith ["h1"] demoUsers "u1" "h1" =
      { status := 403, message := "Admin access required" } :=
  ((require_admin_forbidden_c3 demoUsers "u1" ["h1"] "h1" (by decide)
      "T" "X" "R" (by decide) (by decide) (by decide)).2.1
    { name := "Bob", email := "b@x.com", createdAt := "t0", isAdmin := some false }
    rfl (by decide)).1

/-- **C10**: in the hadith update and delete handlers the existence check
precedes the admin check, so an authenticated non-admin caller gets 403
for an existing id and 404 for a non-existing id — two distinguishable
responses that reveal whether the id exists. -/
theorem hadith_existence_oracle_c10
    (hadiths : List String) (users : String → Option StoredUser) (uid : String)
    (idPresent idAbsent : String)
    (hpres : idPresent ∈ hadiths)
    (habs : idAbsent ∉ hadiths)
    (hnonadmin : isAdminUser (users uid) = false) :
    (updateHadith hadiths users uid idPresent).status = 403 ∧
    (updateHadith hadiths users uid idAbsent).status = 404 ∧
    updateHadith hadiths users uid idPresent ≠ updateHadith hadiths users uid idAbsent ∧
    (deleteHadith hadiths users uid idPresent).status = 403 ∧
    (deleteHadith hadiths users uid idAbsent).status = 404 ∧
    deleteHadith hadiths users uid idPresent ≠ deleteHadith hadiths users uid idAbsent := by
  have h1 : updateHadith hadiths users uid idPresent =
      { status := 403, message := "Admin access required" } := by
    simp [updateHadith, hpres, hnonadmin]
  have h2 : updateHadith hadiths users uid idAbsent =
      { status := 404, message := "Hadith not found" } := by
    simp [updateHadith, habs]
  have h3 : deleteHadith hadiths users uid idPresent =
      { status := 403, message := "Admin access required" } := by
    simp [deleteHadith, hpres, hnonadmin]
  have h4 : deleteHadith hadiths users uid idAbsent =
      { status := 404, message := "Hadith not found" } := by
    simp [deleteHadith, habs]
  rw [h1, h2, h3, h4]
  refine ⟨rfl, rfl, by decide, rfl, rfl, by decide⟩

/-- Witness for **C10**: a non-admin caller against hadith table
`["h1"]`: updating `h1` and `h2` is 403 vs 404. -/
theorem hadith_existence_oracle_c10_witness :
    (updateHadith ["h1"] demoUsers "u1" "h1").status = 403 ∧
    (updateHadith ["h1"] demoUsers "u1" "h2").status = 404 ∧
    updateHadith ["h1"] demoUsers "u1" "h1" ≠ updateHadith ["h1"] demoUsers "u1" "h2" ∧
    (deleteHadith ["h1"] demoUsers "u1" "h1").status = 403 ∧
    (deleteHadith ["h1"] demoUsers "u1" "h2").status = 404 ∧
    deleteHadith ["h1"] demoUsers "u1" "h1" ≠ deleteHadith ["h1"] demoUsers "u1" "h2" :=
  hadith_existence_oracle_c10 ["h1"] demoUsers "u1" "h1" "h2"
    (by decide) (by decide) (by decide)

/-- **C6 (amended)**: case-normalization at login is a property of the
local variant only. The local Login trims/lowercases the supplied email,
so any variant that normalizes to the email of a stored user — in
particular an upper-cased variant of a registered (lowercase-stored)
email — resolves that same user, and the outcome then depends only on
the password comparison. The Firebase-backed login performs no
normalization of its own: it hands the supplied email verbatim to the
provider lookup, so it misses (401 `Invalid credentials`) whenever no
stored account's email equals the supplied string exactly, and on an
exact match it answers 200 with a custom token irrespective of the
password. -/
theorem login_email_case_insensitive_c6
    (compare : String → String → Bool) (secret : String) (now : Nat)
    (users : List UserRecord) (u : UserRecord) (stored : String)
    (hfind : findUserByEmail users (normalizeEmail stored) = some u)
    (e' : String) (hnorm : normalizeEmail e' = normalizeEmail stored)
    (he' : e' ≠ "") (p : String) (hp : p ≠ "") :
    (login compare secret now users (some e') (some p) =
      (if compare p u.password then
        .ok u (createToken secret now { id := u.id, email := u.email })
      else .invalidCredentials)) ∧
    (∀ (authUsers : List FbUser) (customToken : String → String) (e2 p2 : String),
      e2 ≠ "" → p2 ≠ "" →
      (authUsers.find? (fun a => a.email = e2) = none →
        fbLogin authUsers customToken (some e2) (some p2) =
          { status := 401, message := "Invalid credentials" }) ∧
      (∀ a : FbUser, authUsers.find? (fun a2 => a2.email = e2) = some a →
        fbLogin authUsers customToken (some e2) (some p2) =
          { status := 200, message := "Login successful",
            token := some (customToken a.uid) })) := by
  constructor
  · simp [login, strMissing, he', hp, hnorm, hfind]
  · intro authUsers customToken e2 p2 he2 hp2
    constructor
    · intro hmiss
      simp [fbLogin, strMissing, he2, hp2, hmiss]
    · intro a hhit
      simp [fbLogin, strMissing, he2, hp2, hhit]

/-- Witness for **C6**: `demoUser` is stored locally as `a@x.com`; a local
login with `A@X.com` and the wrong password resolves it and is answered
`Invalid credentials` (the spec scenario); against the Firebase route, a
byte-exact email resolves its account and is answered 200 with a token. -/
theorem login_email_case_insensitive_c6_witness :
    login demoCompare "sec" 0 [demoUser] (some "A@X.com") (some "wrong") =
      .invalidCredentials ∧
    fbLogin [demoFbUser] (fun uid => "tok-" ++ uid)
        (some "a@x.com") (some "right") =
      { status := 200, message := "Login successful", token := some "tok-u1" } := by
  have h := login_email_case_insensitive_c6 demoCompare "sec" 0 [demoUser] demoUser
    "a@x.com" (by decide) "A@X.com" (by decide) (by decide) "wrong" (by decide)
  constructor
  · rw [h.1]
    decide
  · exact (h.2 [demoFbUser] (fun uid => "tok-" ++ uid) "a@x.com" "right"
      (by decide) (by decide)).2 demoFbUser (by decide)

/-- Counterexample for **C6** as stated: against the Firebase-backed
login — the claim cites its `getUserByEmail` lookup — `A@X.com` IS a case
variant of the registered `a@x.com` (it normalizes to it), yet the login
is answered 401 `Invalid credentials` even with the correct password: the
upper-cased variant does not resolve to the stored Identity, and no
password-based accept/reject ever happens there. -/
theorem fb_login_case_sensitive_cex_c6 :
    normalizeEmail "A@X.com" = demoFbUser.email ∧
    fbLogin [demoFbUser] (fun uid => "tok-" ++ uid)
        (some "A@X.com") (some "right") =
      { status := 401, message := "Invalid credentials", token := none } := by
  decide

/-- **C5**: every token the local routes issue (via `createToken`, at the
login and register call sites) is issued at `now` with expiry exactly
7 days later, and its payload is exactly `{ id, email }` of the resolved
identity — in particular it is unchanged if the identity's stored
credential hash is replaced by anything else, so the hash is never
embedded. -/
theorem issued_token_window_payload_c5
    (compare : String → String → Bool) (hash : String → String)
    (secret1 secret2 : String) (now1 now2 : Nat)
    (users1 : List UserRecord) (e1 p1 : String) (u1 : UserRecord) (t1 : Token)
    (h1 : login compare secret1 now1 users1 (some e1) (some p1) = .ok u1 t1)
    (newId createdAt : String) (users2 : List UserRecord) (e2 p2 : String)
    (nm : Option String) (u2 : UserRecord) (t2 : Token) (users2' : List UserRecord)
    (h2 : register hash secret2 now2 newId createdAt users2 (some e2) (some p2) nm =
      (.ok u2 t2, users2')) :
    t1.iat = now1 ∧ t1.exp = now1 + sevenDays ∧
    t1.payload = { id := u1.id, email := u1.email } ∧
    (∀ pw : String, t1.payload =
      { id := ({ u1 with password := pw } : UserRecord).id,
        email := ({ u1 with password := pw } : UserRecord).email }) ∧
    t2.iat = now2 ∧ t2.exp = now2 + sevenDays ∧
    t2.payload = { id := u2.id, email := u2.email } := by
  have hth1 : t1 = createToken secret1 now1 { id := u1.id, email := u1.email } := by
    unfold login at h1
    split at h1
    · exact absurd h1 (by simp)
    · simp only [Option.getD_some] at h1
      rcases hf : findUserByEmail users1 (normalizeEmail e1) with _ | user
      · simp only [hf] at h1
        exact absurd h1 (by simp)
      · simp only [hf] at h1
        split at h1
        · rw [LoginResult.ok.injEq] at h1
          rw [← h1.1, ← h1.2]
        · exact absurd h1 (by simp)
  have hth2 : t2 = createToken secret2 now2 { id := u2.id, email := u2.email } := by
    unfold register at h2
    split at h2
    · exact absurd h2 (by simp)
    · simp only [Option.getD_some] at h2
      rcases hf : findUserByEmail users2 (normalizeEmail e2) with _ | prev
      · simp only [hf, Prod.mk.injEq, RegisterResult.ok.injEq] at h2
        rw [← h2.1.1, ← h2.1.2]
      · simp only [hf] at h2
        exact absurd h2 (by simp)
  subst hth1 hth2
  exact ⟨rfl, rfl, rfl, fun pw => rfl, rfl, rfl, rfl⟩

/-- Witness for **C5**: a concrete successful login of `demoUser` and a
concrete successful registration; both tokens carry only id/email and a
7-day window from issuance. -/
theorem issued_token_window_payload_c5_witness :
    (createToken "sec" 5 { id := "u1", email := "a@x.com" }).iat = 5 ∧
    (createToken "sec" 5 { id := "u1", email := "a@x.com" }).exp = 5 + sevenDays ∧
    (createToken "sec" 5 { id := "u1", email := "a@x.com" }).payload =
      { id := demoUser.id, email := demoUser.email } ∧
    (∀ pw : String, (createToken "sec" 5 { id := "u1", email := "a@x.com" }).payload =
      { id := ({ demoUser with password := pw } : UserRecord).id,
        email := ({ demoUser with password := pw } : UserRecord).email }) ∧
    (createToken "sec2" 9 { id := "id9", email := "b@y.com" }).iat = 9 ∧
    (createToken "sec2" 9 { id := "id9", email := "b@y.com" }).exp = 9 + sevenDays ∧
    (createToken "sec2" 9 { id := "id9", email := "b@y.com" }).payload =
      { id := "id9", email := "b@y.com" } :=
  issued_token_window_payload_c5 demoCompare demoHash "sec" "sec2" 5 9
    [demoUser] "a@x.com" "secret123" demoUser
    (createToken "sec" 5 { id := "u1", email := "a@x.com" }) (by decide)
    "id9" "t9" [] "b@y.com" "pw" (some "Bo")
    { id := "id9", email := "b@y.com", password := "H:pw", name := some "Bo",
      created_at := "t9" }
    (createToken "sec2" 9 { id := "id9", email := "b@y.com" })
    [{ id := "id9", email := "b@y.com", password := "H:pw", name := some "Bo",
       created_at := "t9" }] (by decide)

/-- **C7 (amended)**: the Firebase-backed Register rejects a request
missing any of email, password, name with 400 and creates no account; the
local Register rejects a missing email or password with 400 and creates
no row — but a missing name does not fail there (the Identity is created
with a NULL name, see the counterexample). -/
theorem register_missing_fields_c7 :
    (∀ (newUid newToken : String) (authUsers : List FbUser)
      (email password name : Option String),
      (strMissing email || strMissing password || strMissing name) = true →
      (fbRegister newUid newToken authUsers email password name).1.status = 400 ∧
      (fbRegister newUid newToken authUsers email password name).2 = authUsers) ∧
    (∀ (hash : String → String) (secret : String) (now : Nat)
      (newId createdAt : String) (users : List UserRecord)
      (email password name : Option String),
      (strMissing email || strMissing password) = true →
      (register hash secret now newId createdAt users email password name).1.status = 400 ∧
      (register hash secret now newId createdAt users email password name).2 = users) := by
  constructor
  · intro newUid newToken authUsers email password name hmiss
    simp [fbRegister, hmiss, Resp.status]
  · intro hash secret now newId createdAt users email password name hmiss
    simp [register, hmiss, RegisterResult.status]

/-- Witness for **C7**: a Firebase register with no name and a local
register with no password are both answered 400 with nothing created. -/
theorem register_missing_fields_c7_witness :
    (fbRegister "u9" "tok" [] (some "a@x.com") (some "pw") none).1.status = 400 ∧
    (fbRegister "u9" "tok" [] (some "a@x.com") (some "pw") none).2 = [] ∧
    (register demoHash "sec" 0 "id1" "t0" [] (some "a@x.com") none none).1.status = 400 ∧
    (register demoHash "sec" 0 "id1" "t0" [] (some "a@x.com") none none).2 = [] :=
  ⟨(register_missing_fields_c7.1 "u9" "tok" [] (some "a@x.com") (some "pw") none
      (by decide)).1,
   (register_missing_fields_c7.1 "u9" "tok" [] (some "a@x.com") (some "pw") none
      (by decide)).2,
   (register_missing_fields_c7.2 demoHash "sec" 0 "id1" "t0" [] (some "a@x.com")
      none none (by decide)).1,
   (register_missing_fields_c7.2 demoHash "sec" 0 "id1" "t0" [] (some "a@x.com")
      none none (by decide)).2⟩

/-- Counterexample for **C7** as stated: the local Register with a missing
name succeeds — it creates the Identity (with NULL name) and answers 200,
not 400. -/
theorem register_missing_name_created_cex_c7 :
    register demoHash "sec" 0 "id1" "t0" [] (some "a@x.com") (some "secret123") none =
      (.ok { id := "id1", email := "a@x.com", password := "H:secret123",
             name := none, created_at := "t0" }
        (createToken "sec" 0 { id := "id1", email := "a@x.com" }),
       [{ id := "id1", email := "a@x.com", password := "H:secret123",
          name := none, created_at := "t0" }]) ∧
    (register demoHash "sec" 0 "id1" "t0" [] (some "a@x.com") (some "secret123")
      none).1.status = 200 := by
  decide

/-- **C8 (amended)**: on a successful registration the Firebase-backed
route answers 201, but the local route answers Express's default 200 (its
success branch calls `res.json` without setting a status). -/
theorem register_success_status_c8 :
    (∀ (newUid newToken : String) (authUsers : List FbUser)
      (email password name : String),
      email ≠ "" → password ≠ "" → name ≠ "" →
      authUsers.find? (fun u => u.email = email) = none →
      (fbRegister newUid newToken authUsers (some email) (some password)
        (some name)).1.status = 201) ∧
    (∀ (hash : String → String) (secret : String) (now : Nat)
      (newId createdAt : String) (users : List UserRecord)
      (email password : String) (name : Option String),
      email ≠ "" → password ≠ "" →
      findUserByEmail users (normalizeEmail email) = none →
      (register hash secret now newId createdAt users (some email) (some password)
        name).1.status = 200) := by
  constructor
  · intro newUid newToken authUsers email password name he hp hn hfind
    simp [fbRegister, strMissing, he, hp, hn, hfind, Resp.status]
  · intro hash secret now newId createdAt users email password name he hp hfind
    simp [register, strMissing, he, hp, hfind, RegisterResult.status]

/-- Witness for **C8**: one successful registration on each route. -/
theorem register_success_status_c8_witness :
    (fbRegister "u9" "tok" [] (some "a@x.com") (some "pw") (some "Amina")).1.status = 201 ∧
    (register demoHash "sec" 0 "id2" "t0" [] (some "b@x.com") (some "secret123")
      (some "Amina")).1.status = 200 :=
  ⟨register_success_status_c8.1 "u9" "tok" [] "a@x.com" "pw" "Amina"
      (by decide) (by decide) (by decide) rfl,
   register_success_status_c8.2 demoHash "sec" 0 "id2" "t0" [] "b@x.com" "secret123"
      (some "Amina") (by decide) (by decide) (by decide)⟩

/-- Counterexample for **C8** as stated: a successful local registration
answers 200, not 201. -/
theorem register_success_200_cex_c8 :
    (register demoHash "sec" 0 "id2" "t0" [] (some "b@x.com") (some "secret123")
      (some "Amina")).1 =
      .ok { id := "id2", email := "b@x.com", password := "H:secret123",
            name := some "Amina", created_at := "t0" }
        (createToken "sec" 0 { id := "id2", email := "b@x.com" }) ∧
    (register demoHash "sec" 0 "id2" "t0" [] (some "b@x.com") (some "secret123")
      (some "Amina")).1.status = 200 ∧
    (200 : Nat) ≠ 201 := by
  decide

end Raax
